import Mathlib

/-!
Verification development for the OCPP 2.0.1 smart-charging core
(`src/lib/ocpp/v201/smart_charging.cpp`, `src/include/ocpp/v201/smart_charging.hpp`).

Shallow embedding conventions:
  - Machine integers (`int32_t`, duration counts) are modelled as `Int`; none of
    the embedded computations approach the 32/64-bit bounds on the inputs the
    theorems use.
  - `ocpp::DateTime` wraps a sub-second-resolution UTC time point; it is
    modelled as an `Int` count of milliseconds since the epoch.  The source's
    `std::chrono::floor<seconds>` (round toward negative infinity) becomes
    `floor_to_seconds_ms`, and `duration_cast<seconds>` (truncation toward
    zero) becomes `ms_to_sec_trunc` (`Int.tdiv`, C++ semantics).  The C++ `%`
    on integers is `Int.tmod`.
  - `std::optional` is `Option`; `std::vector` is `List`; the two `std::map`
    members are association lists (the claims settled here are insensitive to
    the key-sorted iteration order of `std::map`).
  - `ChargingSchedulePeriod::limit` is a C++ `float`; it is modelled as `Rat`.
    No embedded function reads it arithmetically and every concrete input used
    below gives it a small integral value, so no floating-point rounding is
    involved in any theorem.
  - The handler's mutable members (`charging_profiles`,
    `station_wide_charging_profiles`) form `SmartChargingState`; the `evses`
    registry reference is passed explicitly where a function reads it.
    Stateful code is explicit state passing: `add_profile` returns the updated
    state, the `const` validators return only their result.
-/

namespace SmartCharging

/-- ProfileValidationResultEnum from smart_charging.hpp. -/
inductive ProfileValidationResultEnum where
  | Valid
  | EvseDoesNotExist
  | TxProfileMissingTransactionId
  | TxProfileEvseIdNotGreaterThanZero
  | TxProfileTransactionNotOnEvse
  | TxProfileEvseHasNoActiveTransaction
  | TxProfileConflictingStackLevel
  | ChargingProfileNoChargingSchedulePeriods
  | ChargingProfileFirstStartScheduleIsNotZero
  | ChargingProfileMissingRequiredStartSchedule
  | ChargingProfileExtraneousStartSchedule
  | ChargingSchedulePeriodsOutOfOrder
  | ChargingSchedulePeriodInvalidPhaseToUse
  | ChargingSchedulePeriodUnsupportedNumberPhases
  | ChargingSchedulePeriodExtraneousPhaseValues
  | DuplicateTxDefaultProfileFound
deriving DecidableEq, Repr

/-- ChargingProfilePurposeEnum from ocpp/v201 types. -/
inductive ChargingProfilePurposeEnum where
  | ChargingStationExternalConstraints
  | ChargingStationMaxProfile
  | TxDefaultProfile
  | TxProfile
deriving DecidableEq, Repr

/-- ChargingProfileKindEnum from ocpp/v201 types. -/
inductive ChargingProfileKindEnum where
  | Absolute
  | Recurring
  | Relative
deriving DecidableEq, Repr

/-- RecurrencyKindEnum from ocpp/v201 types. -/
inductive RecurrencyKindEnum where
  | Daily
  | Weekly
deriving DecidableEq, Repr

/-- ChargingRateUnitEnum from ocpp/v201 types. -/
inductive ChargingRateUnitEnum where
  | W
  | A
deriving DecidableEq, Repr

/-- CurrentPhaseType of an EVSE (AC or DC). -/
inductive CurrentPhaseType where
  | AC
  | DC
deriving DecidableEq, Repr

/-- ChargingSchedulePeriod: one segment of a schedule.  Fields not read by any
embedded function (customData) are omitted. -/
structure ChargingSchedulePeriod where
  startPeriod : Int
  limit : Rat
  numberPhases : Option Int
  phaseToUse : Option Int
deriving DecidableEq, Repr

/-- ChargingSchedule: one tariff curve.  startSchedule and the schedule fields
are in milliseconds / seconds exactly as in the source. -/
structure ChargingSchedule where
  id : Int
  chargingRateUnit : ChargingRateUnitEnum
  chargingSchedulePeriod : List ChargingSchedulePeriod
  startSchedule : Option Int
  duration : Option Int
  minChargingRate : Option Rat
deriving DecidableEq, Repr

/-- ChargingProfile: one policy layer. -/
structure ChargingProfile where
  id : Int
  stackLevel : Int
  chargingProfilePurpose : ChargingProfilePurposeEnum
  chargingProfileKind : ChargingProfileKindEnum
  recurrencyKind : Option RecurrencyKindEnum
  validFrom : Option Int
  validTo : Option Int
  transactionId : Option String
  chargingSchedule : List ChargingSchedule
deriving DecidableEq, Repr

/-- CompositeSchedule: the output envelope of the composer. -/
structure CompositeSchedule where
  evseId : Int
  duration : Int
  scheduleStart : Int
  chargingRateUnit : ChargingRateUnitEnum
  chargingSchedulePeriod : List ChargingSchedulePeriod
deriving DecidableEq, Repr

/-- LimitStackLevelPair helper struct from smart_charging.hpp. -/
structure LimitStackLevelPair where
  limit : Int
  stack_level : Int
deriving DecidableEq, Repr

/-- EvseTransaction: the transaction view the EVSE interface exposes
(get_transaction: transactionId and the start timestamp). -/
structure EvseTransaction where
  transactionId : String
  startTimestamp : Int
deriving DecidableEq, Repr

/-- Evse: the capability view of one EVSE consumed by the handler
(get_evse_info().id, get_current_phase_type(), has_active_transaction() /
get_transaction() collapsed into an Option). -/
structure Evse where
  id : Int
  currentPhaseType : CurrentPhaseType
  transaction : Option EvseTransaction
deriving DecidableEq, Repr

/-- SmartChargingState: the two mutable profile containers of
SmartChargingHandler.  chargingProfiles is the std::map from evse id to that
EVSE's profile vector; stationWideChargingProfiles is the evse-0 bucket. -/
structure SmartChargingState where
  chargingProfiles : List (Int × List ChargingProfile)
  stationWideChargingProfiles : List ChargingProfile
deriving DecidableEq, Repr

/-- Empty handler state: both containers start empty. -/
def emptyState : SmartChargingState := { chargingProfiles := [], stationWideChargingProfiles := [] }

/-- STATION_WIDE_ID constant from smart_charging.cpp. -/
def STATION_WIDE_ID : Int := 0

/-- DEFAULT_AND_MAX_NUMBER_PHASES constant from smart_charging.hpp. -/
def DEFAULT_AND_MAX_NUMBER_PHASES : Int := 3

/-- HOURS_PER_DAY constant from smart_charging.hpp. -/
def HOURS_PER_DAY : Int := 24

/-- SECONDS_PER_HOUR constant from smart_charging.hpp. -/
def SECONDS_PER_HOUR : Int := 3600

/-- SECONDS_PER_DAY constant from smart_charging.hpp. -/
def SECONDS_PER_DAY : Int := 86400

/-- DAYS_PER_WEEK constant from smart_charging.hpp. -/
def DAYS_PER_WEEK : Int := 7

/-- Milliseconds-to-time-point floor to whole seconds:
std::chrono::floor seconds rounds toward negative infinity. -/
def floor_to_seconds_ms (x : Int) : Int := 1000 * Int.fdiv x 1000

/-- duration_cast to seconds of a millisecond count: truncation toward zero. -/
def ms_to_sec_trunc (x : Int) : Int := Int.tdiv x 1000

/-- SmartChargingHandler::validate_evse_exists: Valid exactly when the evses
map contains the key; there is no special case for evse_id 0. -/
def validate_evse_exists (evses : List (Int × Evse)) (evse_id : Int) : ProfileValidationResultEnum :=
  match evses.lookup evse_id with
  | none => .EvseDoesNotExist
  | some _ => .Valid

/-- Loop body of validate_tx_default_profile: the first candidate with equal
stackLevel and different id yields DuplicateTxDefaultProfileFound. -/
def scan_tx_default (profile : ChargingProfile) : List ChargingProfile → ProfileValidationResultEnum
  | [] => .Valid
  | candidate :: rest =>
    if candidate.stackLevel = profile.stackLevel ∧ candidate.id ≠ profile.id then
      .DuplicateTxDefaultProfileFound
    else
      scan_tx_default profile rest

/-- TxDefaultProfile filter used by both comparison-set getters. -/
def tx_default_filter (profiles : List ChargingProfile) : List ChargingProfile :=
  profiles.filter (fun p => decide (p.chargingProfilePurpose = .TxDefaultProfile))

/-- Bucket-by-bucket collection loop of get_evse_specific_tx_default_profiles. -/
def collect_tx_default_profiles : List (Int × List ChargingProfile) → List ChargingProfile
  | [] => []
  | (_, profiles) :: rest => tx_default_filter profiles ++ collect_tx_default_profiles rest

/-- SmartChargingHandler::get_evse_specific_tx_default_profiles: every
TxDefaultProfile found in the per-EVSE buckets. -/
def get_evse_specific_tx_default_profiles (s : SmartChargingState) : List ChargingProfile :=
  collect_tx_default_profiles s.chargingProfiles

/-- SmartChargingHandler::get_station_wide_tx_default_profiles: every
TxDefaultProfile in the station-wide bucket. -/
def get_station_wide_tx_default_profiles (s : SmartChargingState) : List ChargingProfile :=
  tx_default_filter s.stationWideChargingProfiles

/-- SmartChargingHandler::validate_tx_default_profile.  Note the comparison
set the source selects: the per-EVSE profiles when evse_id is 0, the
station-wide profiles otherwise. -/
def validate_tx_default_profile (s : SmartChargingState) (profile : ChargingProfile) (evse_id : Int) : ProfileValidationResultEnum :=
  let profiles := if evse_id = 0 then get_evse_specific_tx_default_profiles s
                  else get_station_wide_tx_default_profiles s
  scan_tx_default profile profiles

/-- Lambda conflicts_with inside validate_tx_profile, applied to one bucket:
any stored profile with the same transactionId (optional equality) and the
same stackLevel conflicts; the stored profile's id is not consulted. -/
def tx_profile_conflict (profile : ChargingProfile) (bucket : List ChargingProfile) : Bool :=
  bucket.any (fun candidate =>
    candidate.transactionId == profile.transactionId && candidate.stackLevel == profile.stackLevel)

/-- SmartChargingHandler::validate_tx_profile. -/
def validate_tx_profile (s : SmartChargingState) (profile : ChargingProfile) (evse : Evse) : ProfileValidationResultEnum :=
  match profile.transactionId with
  | none => .TxProfileMissingTransactionId
  | some tid =>
    if evse.id ≤ 0 then .TxProfileEvseIdNotGreaterThanZero
    else
      match evse.transaction with
      | none => .TxProfileEvseHasNoActiveTransaction
      | some tx =>
        if tx.transactionId ≠ tid then .TxProfileTransactionNotOnEvse
        else if s.chargingProfiles.any (fun kv => tx_profile_conflict profile kv.2) then
          .TxProfileConflictingStackLevel
        else .Valid

/-- Check whether the period after the current one starts no later than the
current one (K01.FR.35 comparison with the successor). -/
def next_period_out_of_order (period : ChargingSchedulePeriod) : List ChargingSchedulePeriod → Bool
  | [] => false
  | next :: _ => decide (next.startPeriod ≤ period.startPeriod)

/-- Does the period carry a numberPhases value above DEFAULT_AND_MAX_NUMBER_PHASES
(the C++ optional-greater-than comparison)? -/
def number_phases_above_max (period : ChargingSchedulePeriod) : Bool :=
  match period.numberPhases with
  | some n => decide (DEFAULT_AND_MAX_NUMBER_PHASES < n)
  | none => false

/-- Period loop of validate_profile_schedules.  The checks run in source
order: K01.FR.19 (phaseToUse), K01.FR.31 (first startPeriod), K01.FR.35
(ordering), then the EVSE-dependent DC/AC checks.  The K01.FR.49 in-place
default (numberPhases := 3 for AC when absent) rewrites the period but no
later check reads the rewritten field, so the returned result is unchanged
and this result-only embedding omits the write.  none means every period
passed. -/
def check_schedule_periods (evse_opt : Option Evse) : Bool → List ChargingSchedulePeriod → Option ProfileValidationResultEnum
  | _, [] => none
  | is_first, period :: rest =>
    if period.numberPhases ≠ some 1 ∧ period.phaseToUse.isSome then
      some .ChargingSchedulePeriodInvalidPhaseToUse
    else if is_first ∧ period.startPeriod ≠ 0 then
      some .ChargingProfileFirstStartScheduleIsNotZero
    else if next_period_out_of_order period rest then
      some .ChargingSchedulePeriodsOutOfOrder
    else
      match evse_opt with
      | some evse =>
        if evse.currentPhaseType = .DC ∧ (period.numberPhases.isSome ∨ period.phaseToUse.isSome) then
          some .ChargingSchedulePeriodExtraneousPhaseValues
        else if evse.currentPhaseType = .AC ∧ number_phases_above_max period then
          some .ChargingSchedulePeriodUnsupportedNumberPhases
        else
          check_schedule_periods evse_opt false rest
      | none => check_schedule_periods evse_opt false rest

/-- Schedule loop of validate_profile_schedules: empty-period check, the
period loop, then the kind / startSchedule coherence checks (K01.FR.40 and
K01.FR.41), per schedule in order. -/
def validate_schedule_list (evse_opt : Option Evse) (kind : ChargingProfileKindEnum) : List ChargingSchedule → ProfileValidationResultEnum
  | [] => .Valid
  | schedule :: rest =>
    if schedule.chargingSchedulePeriod = [] then
      .ChargingProfileNoChargingSchedulePeriods
    else
      match check_schedule_periods evse_opt true schedule.chargingSchedulePeriod with
      | some r => r
      | none =>
        if kind ≠ .Relative ∧ schedule.startSchedule = none then
          .ChargingProfileMissingRequiredStartSchedule
        else if kind = .Relative ∧ schedule.startSchedule.isSome then
          .ChargingProfileExtraneousStartSchedule
        else validate_schedule_list evse_opt kind rest

/-- SmartChargingHandler::validate_profile_schedules (result only; see
check_schedule_periods for the omitted K01.FR.49 write). -/
def validate_profile_schedules (profile : ChargingProfile) (evse_opt : Option Evse) : ProfileValidationResultEnum :=
  validate_schedule_list evse_opt profile.chargingProfileKind profile.chargingSchedule

/-- Append a profile to the bucket of the given evse id, creating the bucket
when absent (std::map operator[] followed by push_back). -/
def add_to_bucket (evse_id : Int) (profile : ChargingProfile) : List (Int × List ChargingProfile) → List (Int × List ChargingProfile)
  | [] => [(evse_id, [profile])]
  | (k, profiles) :: rest =>
    if k = evse_id then (k, profiles ++ [profile]) :: rest
    else (k, profiles) :: add_to_bucket evse_id profile rest

/-- SmartChargingHandler::add_profile: an unconditional push_back into the
station-wide bucket (evse_id 0) or the EVSE's own bucket.  No field of the
stored profiles, in particular no id, is examined. -/
def add_profile (s : SmartChargingState) (evse_id : Int) (profile : ChargingProfile) : SmartChargingState :=
  if STATION_WIDE_ID = evse_id then
    { s with stationWideChargingProfiles := s.stationWideChargingProfiles ++ [profile] }
  else
    { s with chargingProfiles := add_to_bucket evse_id profile s.chargingProfiles }

/-- Bucket view of the per-EVSE map (empty when no bucket exists). -/
def bucket_of (s : SmartChargingState) (evse_id : Int) : List ChargingProfile :=
  (s.chargingProfiles.lookup evse_id).getD []

/-- SmartChargingHandler::initialize_enhanced_composite_schedule: a
default-constructed CompositeSchedule (empty period vector) with evseId,
duration (duration_cast to seconds of the window), scheduleStart and
chargingRateUnit filled in. -/
def initialize_enhanced_composite_schedule (start_time end_time evse_id : Int) (charging_rate_unit : ChargingRateUnitEnum) : CompositeSchedule :=
  { evseId := evse_id
    duration := ms_to_sec_trunc (end_time - start_time)
    scheduleStart := start_time
    chargingRateUnit := charging_rate_unit
    chargingSchedulePeriod := [] }

/-- SmartChargingHandler::determine_duration: whole seconds between the two
instants (duration_cast truncation). -/
def determine_duration (start_time end_time : Int) : Int :=
  ms_to_sec_trunc (end_time - start_time)

/-- SmartChargingHandler::within_time_window: the window is non-degenerate. -/
def within_time_window (start_time end_time : Int) : Bool :=
  decide (0 < determine_duration start_time end_time)

/-- SmartChargingHandler::get_initial_purpose_and_stack_limits: the limit /
stack-level accumulator map, one entry per purpose handled by the sweep
(INT_MAX limit, stack level -1; ChargingStationExternalConstraints gets no
entry). -/
def get_initial_purpose_and_stack_limits : List (ChargingProfilePurposeEnum × LimitStackLevelPair) :=
  [ (.ChargingStationMaxProfile, { limit := 2147483647, stack_level := -1 })
  , (.TxDefaultProfile, { limit := 2147483647, stack_level := -1 })
  , (.TxProfile, { limit := 2147483647, stack_level := -1 }) ]

/-- SmartChargingHandler::calculate_composite_schedule.  The source
initializes the composite schedule, then enters the sweep loop
(while within_time_window(start_time, end_time)); the loop body only builds
get_initial_purpose_and_stack_limits, logs each profile, and ends in an
unconditional break, so at most one iteration runs and nothing it computes
reaches the returned value.  The valid_profiles argument is therefore never
reflected in the result. -/
def calculate_composite_schedule (_valid_profiles : List ChargingProfile) (start_time end_time : Int) (evse_id : Int) (charging_rate_unit : ChargingRateUnitEnum) : CompositeSchedule :=
  initialize_enhanced_composite_schedule start_time end_time evse_id charging_rate_unit

/-- SmartChargingHandler::get_absolute_profile_start_time: the startSchedule
floored to whole seconds; no start when the profile has no startSchedule
(the source logs a warning and returns the empty optional). -/
def get_absolute_profile_start_time (startSchedule : Option Int) : Option Int :=
  match startSchedule with
  | some s => some (floor_to_seconds_ms s)
  | none => none

/-- SmartChargingHandler::get_recurring_profile_start_time: shift the query
time backward by the elapsed seconds since the floored startSchedule, modulo
one day (Daily) or one week (otherwise), using C++ truncated division and
remainder.  When startSchedule is absent the source logs a warning and
returns the empty optional.  When recurrencyKind is absent the source throws
from std::optional::value(); that case is modelled as no start time and no
theorem below reaches it. -/
def get_recurring_profile_start_time (time : Int) (startSchedule : Option Int) (recurrencyKind : Option RecurrencyKindEnum) : Option Int :=
  match startSchedule with
  | none => none
  | some s0 =>
    match recurrencyKind with
    | none => none
    | some kind =>
      let start_schedule := floor_to_seconds_ms s0
      let seconds_to_go_back : Int :=
        if kind = .Daily then
          Int.tmod (ms_to_sec_trunc (time - start_schedule)) (HOURS_PER_DAY * SECONDS_PER_HOUR)
        else
          Int.tmod (ms_to_sec_trunc (time - start_schedule)) (SECONDS_PER_DAY * DAYS_PER_WEEK)
      some (time - 1000 * seconds_to_go_back)

/-- SmartChargingHandler::get_relative_profile_start_time: the body only
tests this->evses.at(evse_id) (throwing when the key is absent) with an
empty branch and returns the still-empty optional; the transaction lookup
one would expect is absent from the source. -/
def get_relative_profile_start_time (evses : List (Int × Evse)) (evse_id : Int) : Option Int :=
  match evses.lookup evse_id with
  | some _ => none
  | none => none

/-- SmartChargingHandler::get_profile_start_time: one pass over the
profile's schedules, each iteration overwriting the result according to the
profile kind.  For Relative profiles the source's entire branch body is
commented out, so the optional is left unchanged (none when the profile has
only Relative-resolved schedules); the evse id and the EVSE transaction
state are never consulted. -/
def get_profile_start_time (profile : ChargingProfile) (time : Int) (_evse_id : Int) : Option Int :=
  profile.chargingSchedule.foldl
    (fun period_start_time schedule =>
      match profile.chargingProfileKind with
      | .Absolute => get_absolute_profile_start_time schedule.startSchedule
      | .Relative => period_start_time
      | .Recurring => get_recurring_profile_start_time time schedule.startSchedule profile.recurrencyKind)
    none

/-- get_period_end_time free function: the body is a stub returning the
period start time unchanged. -/
def get_period_end_time (period_start_time : Int) (_charging_schedule_duration : Option Int) (_period : ChargingSchedulePeriod) : Int :=
  period_start_time

/-- continue_time_arrow free function (the live return line; the
period_start_time comparison is commented out in the source). -/
def continue_time_arrow (temp_time : Int) (_period_start_time : Int) (period_end_time : Int) (lowest_next_time : Int) : Bool :=
  decide (temp_time < period_end_time) && decide (period_end_time < lowest_next_time)

/-- Inner period loop of get_next_temp_time: thread period_start_time and
lowest_next_time through the periods, lowering lowest_next_time to the
period end whenever continue_time_arrow allows. -/
def sweep_periods (temp_time : Int) (schedule_duration : Option Int) : Int → Int → List ChargingSchedulePeriod → Int
  | _, lowest_next_time, [] => lowest_next_time
  | period_start_time, lowest_next_time, period :: rest =>
    let period_end_time := get_period_end_time period_start_time schedule_duration period
    if continue_time_arrow temp_time period_start_time period_end_time lowest_next_time then
      sweep_periods temp_time schedule_duration period_end_time period_end_time rest
    else
      sweep_periods temp_time schedule_duration period_end_time lowest_next_time rest

/-- Outer profile loop of get_next_temp_time.  front() on an empty schedule
vector is undefined behaviour in the source; the claims only quantify over
profiles with at least one schedule, and an empty vector is modelled as
leaving lowest_next_time unchanged. -/
def next_temp_time_loop (temp_time evse_id : Int) : Int → List ChargingProfile → Int
  | lowest_next_time, [] => lowest_next_time
  | lowest_next_time, profile :: rest =>
    next_temp_time_loop temp_time evse_id
      (match profile.chargingSchedule with
       | [] => lowest_next_time
       | schedule :: _ =>
         match get_profile_start_time profile temp_time evse_id with
         | none => lowest_next_time
         | some period_start_time =>
           sweep_periods temp_time schedule.duration period_start_time lowest_next_time
             schedule.chargingSchedulePeriod)
      rest

/-- SmartChargingHandler::get_next_temp_time.  The source seeds
lowest_next_time with date::utc_clock::now() + hours(INT_MAX); the clock
reading is modelled as the explicit argument now (milliseconds), so the seed
is now + 3600000 * 2147483647. -/
def get_next_temp_time (now temp_time : Int) (valid_profiles : List ChargingProfile) (evse_id : Int) : Int :=
  next_temp_time_loop temp_time evse_id (now + 3600000 * 2147483647) valid_profiles

/-! Concrete fixtures.  Epoch milliseconds used below:
2024-01-01T17:00:00Z = 1704128400000, 2024-01-17T17:00:00Z = 1705510800000,
2024-01-17T17:30:00Z = 1705512600000, 2024-01-17T18:00:00Z = 1705514400000,
2024-01-18T00:00:00Z = 1705536000000. -/

/-- An Absolute single-period schedule starting 2024-01-17T18:00:00Z with the
given limit, no duration (covers any window from its start). -/
def mkAbsoluteSchedule (lim : Rat) : ChargingSchedule :=
  { id := 1
    chargingRateUnit := .A
    chargingSchedulePeriod := [{ startPeriod := 0, limit := lim, numberPhases := some 3, phaseToUse := none }]
    startSchedule := some 1705514400000
    duration := none
    minChargingRate := none }

/-- TxDefault profile, stack level 1, limit 20 A, Absolute over the window. -/
def txDefaultStack1 : ChargingProfile :=
  { id := 1, stackLevel := 1
    chargingProfilePurpose := .TxDefaultProfile
    chargingProfileKind := .Absolute
    recurrencyKind := none, validFrom := none, validTo := none, transactionId := none
    chargingSchedule := [mkAbsoluteSchedule 20] }

/-- TxDefault profile, stack level 2, limit 10 A, Absolute over the window. -/
def txDefaultStack2 : ChargingProfile :=
  { id := 2, stackLevel := 2
    chargingProfilePurpose := .TxDefaultProfile
    chargingProfileKind := .Absolute
    recurrencyKind := none, validFrom := none, validTo := none, transactionId := none
    chargingSchedule := [mkAbsoluteSchedule 10] }

/-- Stored TxDefault profile id 7, stack level 1, sitting in EVSE 1's bucket. -/
def storedTxDefault7 : ChargingProfile :=
  { id := 7, stackLevel := 1
    chargingProfilePurpose := .TxDefaultProfile
    chargingProfileKind := .Absolute
    recurrencyKind := none, validFrom := none, validTo := none, transactionId := none
    chargingSchedule := [mkAbsoluteSchedule 16] }

/-- Submitted TxDefault profile id 8, stack level 1. -/
def submittedTxDefault8 : ChargingProfile :=
  { id := 8, stackLevel := 1
    chargingProfilePurpose := .TxDefaultProfile
    chargingProfileKind := .Absolute
    recurrencyKind := none, validFrom := none, validTo := none, transactionId := none
    chargingSchedule := [mkAbsoluteSchedule 16] }

/-- Handler state whose only profile is storedTxDefault7 in EVSE 1's bucket;
the station-wide bucket is empty. -/
def stateEvse1Has7 : SmartChargingState :=
  { chargingProfiles := [(1, [storedTxDefault7])], stationWideChargingProfiles := [] }

/-- Relative profile (no startSchedule on its schedule, as K01.FR.41 demands). -/
def relativeProfile : ChargingProfile :=
  { id := 11, stackLevel := 1
    chargingProfilePurpose := .TxDefaultProfile
    chargingProfileKind := .Relative
    recurrencyKind := none, validFrom := none, validTo := none, transactionId := none
    chargingSchedule :=
      [{ id := 1, chargingRateUnit := .A
         chargingSchedulePeriod := [{ startPeriod := 0, limit := 16, numberPhases := some 3, phaseToUse := none }]
         startSchedule := none, duration := none, minChargingRate := none }] }

/-- Registry holding EVSE 1 with an active transaction that started at
2024-01-17T17:00:00Z. -/
def registryWithActiveTx : List (Int × Evse) :=
  [(1, { id := 1, currentPhaseType := .AC
         transaction := some { transactionId := "tx-1", startTimestamp := 1705510800000 } })]

/-- Schedule whose first period starts at 1 with numberPhases 3 and a
phaseToUse value (both per-period checks are in play). -/
def schedFirstStartOnePhase : ChargingSchedule :=
  { id := 1, chargingRateUnit := .A
    chargingSchedulePeriod := [{ startPeriod := 1, limit := 16, numberPhases := some 3, phaseToUse := some 1 }]
    startSchedule := some 1705514400000, duration := none, minChargingRate := none }

/-- Absolute profile around schedFirstStartOnePhase. -/
def profileFirstStartOnePhase : ChargingProfile :=
  { id := 21, stackLevel := 1
    chargingProfilePurpose := .TxDefaultProfile
    chargingProfileKind := .Absolute
    recurrencyKind := none, validFrom := none, validTo := none, transactionId := none
    chargingSchedule := [schedFirstStartOnePhase] }

/-- Schedule whose first period starts at 1 with no phase fields at all. -/
def schedFirstStartOneClean : ChargingSchedule :=
  { id := 1, chargingRateUnit := .A
    chargingSchedulePeriod := [{ startPeriod := 1, limit := 16, numberPhases := none, phaseToUse := none }]
    startSchedule := some 1705514400000, duration := none, minChargingRate := none }

/-- Absolute profile around schedFirstStartOneClean. -/
def profileFirstStartOneClean : ChargingProfile :=
  { id := 22, stackLevel := 1
    chargingProfilePurpose := .TxDefaultProfile
    chargingProfileKind := .Absolute
    recurrencyKind := none, validFrom := none, validTo := none, transactionId := none
    chargingSchedule := [schedFirstStartOneClean] }

/-- Recurring schedule anchored at 2024-01-01T17:00:00Z. -/
def recurringSchedule : ChargingSchedule :=
  { id := 1, chargingRateUnit := .W
    chargingSchedulePeriod := [{ startPeriod := 0, limit := 2000, numberPhases := none, phaseToUse := none }]
    startSchedule := some 1704128400000, duration := none, minChargingRate := none }

/-- Daily recurring profile around recurringSchedule. -/
def dailyRecurringProfile : ChargingProfile :=
  { id := 31, stackLevel := 1
    chargingProfilePurpose := .TxDefaultProfile
    chargingProfileKind := .Recurring
    recurrencyKind := some .Daily, validFrom := none, validTo := none, transactionId := none
    chargingSchedule := [recurringSchedule] }

/-- The active transaction used by the TxProfile fixtures. -/
def activeTx : EvseTransaction := { transactionId := "trx", startTimestamp := 1705510800000 }

/-- EVSE 1 with activeTx running. -/
def evseWithActiveTx : Evse := { id := 1, currentPhaseType := .AC, transaction := some activeTx }

/-- TxProfile id 5 on transaction "trx", stack level 1. -/
def txProfile5 : ChargingProfile :=
  { id := 5, stackLevel := 1
    chargingProfilePurpose := .TxProfile
    chargingProfileKind := .Absolute
    recurrencyKind := none, validFrom := none, validTo := none, transactionId := some "trx"
    chargingSchedule := [mkAbsoluteSchedule 16] }

/-- Absolute profile anchored at epoch 0, used to exercise the sweep cursor. -/
def absoluteProfileAtZero : ChargingProfile :=
  { id := 41, stackLevel := 1
    chargingProfilePurpose := .TxDefaultProfile
    chargingProfileKind := .Absolute
    recurrencyKind := none, validFrom := none, validTo := none, transactionId := none
    chargingSchedule :=
      [{ id := 1, chargingRateUnit := .A
         chargingSchedulePeriod := [{ startPeriod := 0, limit := 16, numberPhases := some 3, phaseToUse := none }]
         startSchedule := some 0, duration := none, minChargingRate := none }] }

/-- The early-return loop of validate_tx_default_profile reports a duplicate
exactly when some candidate shares the stack level under a different id. -/
theorem scan_tx_default_eq_dup_iff (p : ChargingProfile) :
    ∀ l : List ChargingProfile,
      scan_tx_default p l = .DuplicateTxDefaultProfileFound ↔
        ∃ q ∈ l, q.stackLevel = p.stackLevel ∧ q.id ≠ p.id := by
  intro l
  induction l with
  | nil => simp [scan_tx_default]
  | cons q rest ih =>
    by_cases hq : q.stackLevel = p.stackLevel ∧ q.id ≠ p.id
    · simp only [scan_tx_default, if_pos hq]
      exact ⟨fun _ => ⟨q, List.mem_cons_self q rest, hq⟩, fun _ => by trivial⟩
    · simp only [scan_tx_default, if_neg hq, ih]
      constructor
      · rintro ⟨x, hx, hxp⟩; exact ⟨x, List.mem_cons_of_mem q hx, hxp⟩
      · rintro ⟨x, hx, hxp⟩
        rcases List.mem_cons.mp hx with hx | hx
        · exact absurd (hx ▸ hxp) hq
        · exact ⟨x, hx, hxp⟩

/-- The loop of validate_tx_default_profile returns Valid exactly when no
candidate shares the stack level under a different id. -/
theorem scan_tx_default_eq_valid_iff (p : ChargingProfile) :
    ∀ l : List ChargingProfile,
      scan_tx_default p l = .Valid ↔ ∀ q ∈ l, q.stackLevel = p.stackLevel → q.id = p.id := by
  intro l
  induction l with
  | nil => simp [scan_tx_default]
  | cons q rest ih =>
    by_cases hq : q.stackLevel = p.stackLevel ∧ q.id ≠ p.id
    · simp only [scan_tx_default, if_pos hq]
      constructor
      · intro hcontra; cases hcontra
      · intro hall; exact absurd (hall q (List.mem_cons_self q rest) hq.1) hq.2
    · simp only [scan_tx_default, if_neg hq, ih]
      constructor
      · intro hall x hx hsl
        rcases List.mem_cons.mp hx with hx | hx
        · subst hx
          by_contra hne
          exact hq ⟨hsl, hne⟩
        · exact hall x hx hsl
      · intro hall x hx hsl; exact hall x (List.mem_cons_of_mem q hx) hsl

/-- Looking up the target bucket after add_to_bucket yields the old bucket
(empty when absent) with the profile appended. -/
theorem lookup_add_to_bucket_self (e : Int) (p : ChargingProfile) :
    ∀ l : List (Int × List ChargingProfile),
      (add_to_bucket e p l).lookup e = some ((l.lookup e).getD [] ++ [p]) := by
  intro l
  induction l with
  | nil => simp [add_to_bucket, List.lookup]
  | cons kv rest ih =>
    obtain ⟨k, ps⟩ := kv
    by_cases hk : k = e
    · subst hk
      simp [add_to_bucket, List.lookup]
    · have hk' : ¬(e = k) := fun h => hk h.symm
      have hbeq : (e == k) = false := beq_eq_false_iff_ne.mpr hk'
      simp only [add_to_bucket, if_neg hk]
      simp only [List.lookup, hbeq]
      exact ih

/-- A bucket that contains the submitted profile itself satisfies the
conflicts_with predicate of validate_tx_profile. -/
theorem tx_profile_conflict_of_mem (p : ChargingProfile) (bucket : List ChargingProfile)
    (h : p ∈ bucket) : tx_profile_conflict p bucket = true := by
  simp only [tx_profile_conflict, List.any_eq_true]
  exact ⟨p, h, by simp⟩

/-- add_to_bucket leaves the added profile in some bucket of the map. -/
theorem add_to_bucket_mem_self (e : Int) (p : ChargingProfile) :
    ∀ l : List (Int × List ChargingProfile),
      ∃ kv ∈ add_to_bucket e p l, p ∈ kv.2 := by
  intro l
  induction l with
  | nil =>
    refine ⟨(e, [p]), ?_, ?_⟩
    · simp [add_to_bucket]
    · simp
  | cons kv rest ih =>
    obtain ⟨k, ps⟩ := kv
    by_cases hk : k = e
    · subst hk
      refine ⟨(k, ps ++ [p]), ?_, ?_⟩
      · simp [add_to_bucket]
      · simp
    · obtain ⟨kv0, hkv0, hp0⟩ := ih
      exact ⟨kv0, by simp [add_to_bucket, hk, hkv0], hp0⟩

/-- The inner period loop of get_next_temp_time never lowers the running
minimum to or below temp_time. -/
theorem sweep_periods_gt (t : Int) (d : Option Int) :
    ∀ (ps : List ChargingSchedulePeriod) (pst lowest : Int),
      t < lowest → t < sweep_periods t d pst lowest ps := by
  intro ps
  induction ps with
  | nil => intro pst lowest h; simpa [sweep_periods] using h
  | cons period rest ih =>
    intro pst lowest h
    simp only [sweep_periods]
    cases hc : continue_time_arrow t pst (get_period_end_time pst d period) lowest
    · simp only [hc, Bool.false_eq_true, if_false]
      exact ih _ _ h
    · simp only [hc, if_true]
      have hlt : t < get_period_end_time pst d period := by
        have hc' := hc
        simp only [continue_time_arrow, Bool.and_eq_true, decide_eq_true_eq] at hc'
        exact hc'.1
      exact ih _ _ hlt

/-- The outer profile loop of get_next_temp_time preserves the strict lower
bound temp_time on the running minimum. -/
theorem next_temp_time_loop_gt (t e : Int) :
    ∀ (profiles : List ChargingProfile) (lowest : Int),
      t < lowest → t < next_temp_time_loop t e lowest profiles := by
  intro profiles
  induction profiles with
  | nil => intro lowest h; simpa [next_temp_time_loop] using h
  | cons profile rest ih =>
    intro lowest h
    simp only [next_temp_time_loop]
    apply ih
    cases hcs : profile.chargingSchedule with
    | nil => exact h
    | cons schedule stail =>
      cases hst : get_profile_start_time profile t e with
      | none => exact h
      | some pst => exact sweep_periods_gt t schedule.duration _ pst lowest h

/-- C1: the claim expects calculate_composite_schedule, given the two
Absolute TxDefault profiles of stack levels 1 (20 A) and 2 (10 A) covering
the whole window, to return periods imposing a uniform 10 A limit.  The
source's sweep loop ends in an unconditional break before emitting anything,
so on exactly that input the returned CompositeSchedule carries an empty
period list and imposes no limit at all. -/
theorem C1_composite_stub_returns_no_periods :
    calculate_composite_schedule [txDefaultStack1, txDefaultStack2]
        1705514400000 1705536000000 1 .A =
      { evseId := 1, duration := 21600, scheduleStart := 1705514400000
        chargingRateUnit := .A, chargingSchedulePeriod := [] } := by
  decide

/-- C2: counterexample to the claimed comparison sets.  The station-wide
bucket is empty and EVSE 1's bucket holds TxDefault profile id 7 at stack
level 1.  For the submission of profile id 8 (stack level 1) with
evse_id = 0 the claim demands a comparison against the (empty) station-wide
set, hence Valid; the code compares against the per-EVSE profiles and
returns DuplicateTxDefaultProfileFound. -/
theorem C2_comparison_set_swapped_cex :
    validate_tx_default_profile stateEvse1Has7 submittedTxDefault8 0 =
        .DuplicateTxDefaultProfileFound ∧
      get_station_wide_tx_default_profiles stateEvse1Has7 = [] := by
  decide

/-- C2 (amended): validate_tx_default_profile compares a profile submitted
with evse_id = 0 against the per-EVSE TxDefault profiles and a profile
submitted with evse_id distinct from 0 against the station-wide TxDefault
profiles (the opposite of the claimed assignment); within that comparison
set it returns DuplicateTxDefaultProfileFound exactly when some profile
shares the stack level under a different id, and Valid otherwise. -/
theorem C2_tx_default_duplicate_iff (s : SmartChargingState) (p : ChargingProfile) (e : Int) :
    (validate_tx_default_profile s p e = .DuplicateTxDefaultProfileFound ↔
      ∃ q ∈ (if e = 0 then get_evse_specific_tx_default_profiles s
             else get_station_wide_tx_default_profiles s),
        q.stackLevel = p.stackLevel ∧ q.id ≠ p.id) ∧
    (validate_tx_default_profile s p e = .Valid ↔
      ∀ q ∈ (if e = 0 then get_evse_specific_tx_default_profiles s
             else get_station_wide_tx_default_profiles s),
        q.stackLevel = p.stackLevel → q.id = p.id) := by
  have hdef : validate_tx_default_profile s p e =
      scan_tx_default p (if e = 0 then get_evse_specific_tx_default_profiles s
                         else get_station_wide_tx_default_profiles s) := rfl
  refine ⟨?_, ?_⟩
  · rw [hdef]; exact scan_tx_default_eq_dup_iff p _
  · rw [hdef]; exact scan_tx_default_eq_valid_iff p _

/-- C3: counterexample to id-idempotence of add_profile.  Adding the same
profile (id 1) twice to EVSE 1's bucket leaves two stored profiles with id
1 in that bucket: nothing is replaced. -/
theorem C3_add_profile_duplicates_id_cex :
    ((bucket_of (add_profile (add_profile emptyState 1 txDefaultStack1) 1 txDefaultStack1) 1).map
        ChargingProfile.id) = [1, 1] := by
  decide

/-- C3 (amended): add_profile appends unconditionally.  For evse_id distinct
from 0 the target EVSE's bucket becomes the old bucket with the profile
appended, and for evse_id = 0 the station-wide bucket does; a previously
stored profile with the same id is kept, so buckets can hold several
profiles with one id. -/
theorem C3_add_profile_appends (s : SmartChargingState) (e : Int) (p : ChargingProfile) :
    (e ≠ 0 → bucket_of (add_profile s e p) e = bucket_of s e ++ [p]) ∧
    (e = 0 → (add_profile s e p).stationWideChargingProfiles =
        s.stationWideChargingProfiles ++ [p]) := by
  constructor
  · intro he
    have h0 : ¬(STATION_WIDE_ID = e) := by simp only [STATION_WIDE_ID]; omega
    simp only [add_profile, if_neg h0, bucket_of]
    rw [lookup_add_to_bucket_self]
    simp
  · intro he
    subst he
    simp [add_profile, STATION_WIDE_ID]

/-- C3 witness: a concrete application of the amended append law. -/
theorem C3_add_profile_appends_witness :
    ((2 : Int) ≠ 0) ∧
      bucket_of (add_profile emptyState 2 storedTxDefault7) 2 =
        bucket_of emptyState 2 ++ [storedTxDefault7] :=
  ⟨by decide, (C3_add_profile_appends emptyState 2 storedTxDefault7).1 (by decide)⟩

/-- C4: the claim expects get_profile_start_time of a Relative profile to
resolve to the start timestamp of the target EVSE's active transaction.
The source's Relative branch is entirely commented out and
get_relative_profile_start_time has an empty body, so even though EVSE 1's
registry entry carries an active transaction started at
2024-01-17T17:00:00Z, both functions return no start time. -/
theorem C4_relative_start_time_stub :
    get_profile_start_time relativeProfile 1705514400000 1 = none ∧
      get_relative_profile_start_time registryWithActiveTx 1 = none ∧
      registryWithActiveTx.lookup 1 =
        some { id := 1, currentPhaseType := .AC
               transaction := some { transactionId := "tx-1", startTimestamp := 1705510800000 } } := by
  decide

/-- C5: counterexample to the claimed special case for evse_id = 0.  With an
empty EVSE registry, validate_evse_exists 0 returns EvseDoesNotExist, while
the claim demands Valid for evse_id = 0 regardless of registry contents. -/
theorem C5_station_wide_id_not_special_cex :
    validate_evse_exists ([] : List (Int × Evse)) 0 = .EvseDoesNotExist ∧
      validate_evse_exists ([] : List (Int × Evse)) 0 ≠ .Valid := by
  decide

/-- C5 (amended): validate_evse_exists returns Valid exactly when the evse
id is a key of the registry; evse_id = 0 receives no special treatment, so
validate_evse_exists 0 is Valid only when the registry has key 0. -/
theorem C5_evse_exists_iff_lookup (evses : List (Int × Evse)) (e : Int) :
    validate_evse_exists evses e = .Valid ↔ (evses.lookup e).isSome = true := by
  cases h : evses.lookup e <;> simp [validate_evse_exists, h]

/-- C6: counterexample to first-start-check priority.  The first period has
start_period 1, numberPhases 3 and a phaseToUse value; the claim demands
ChargingProfileFirstStartScheduleIsNotZero irrespective of the phase
fields, but the per-period phaseToUse check runs first and the code returns
ChargingSchedulePeriodInvalidPhaseToUse. -/
theorem C6_phase_check_precedes_first_start_cex :
    validate_profile_schedules profileFirstStartOnePhase none =
        .ChargingSchedulePeriodInvalidPhaseToUse ∧
      validate_profile_schedules profileFirstStartOnePhase none ≠
        .ChargingProfileFirstStartScheduleIsNotZero := by
  decide

/-- C6 (amended): when every schedule is non-empty and the first schedule's
first period has start_period distinct from 0, validate_profile_schedules
returns ChargingProfileFirstStartScheduleIsNotZero for every EVSE argument,
provided that first period passes the phaseToUse check that the source runs
first (numberPhases equal to 1 or phaseToUse absent). -/
theorem C6_first_start_after_phase_check (p : ChargingProfile) (evse_opt : Option Evse)
    (sch : ChargingSchedule) (rest : List ChargingSchedule)
    (per : ChargingSchedulePeriod) (ps : List ChargingSchedulePeriod)
    (h1 : p.chargingSchedule = sch :: rest)
    (h2 : sch.chargingSchedulePeriod = per :: ps)
    (h3 : per.startPeriod ≠ 0)
    (h4 : per.numberPhases = some 1 ∨ per.phaseToUse = none) :
    validate_profile_schedules p evse_opt = .ChargingProfileFirstStartScheduleIsNotZero := by
  have hnot1 : ¬(per.numberPhases ≠ some 1 ∧ per.phaseToUse.isSome = true) := by
    rcases h4 with h | h
    · exact fun hcontra => hcontra.1 h
    · intro hcontra
      rw [h] at hcontra
      exact absurd hcontra.2 (by simp)
  have hcp : check_schedule_periods evse_opt true sch.chargingSchedulePeriod =
      some .ChargingProfileFirstStartScheduleIsNotZero := by
    rw [h2]
    simp only [check_schedule_periods]
    rw [if_neg hnot1, if_pos ⟨by trivial, h3⟩]
  have hne : sch.chargingSchedulePeriod ≠ [] := by
    rw [h2]; exact List.cons_ne_nil per ps
  unfold validate_profile_schedules
  rw [h1]
  simp only [validate_schedule_list]
  rw [if_neg hne, hcp]

/-- C6 witness: the amended statement applied to a concrete profile whose
first period starts at 1 and carries no phase fields. -/
theorem C6_first_start_witness :
    profileFirstStartOneClean.chargingSchedule = [schedFirstStartOneClean] ∧
      schedFirstStartOneClean.chargingSchedulePeriod =
        [{ startPeriod := 1, limit := 16, numberPhases := none, phaseToUse := none }] ∧
      validate_profile_schedules profileFirstStartOneClean none =
        .ChargingProfileFirstStartScheduleIsNotZero :=
  ⟨rfl, rfl,
    C6_first_start_after_phase_check profileFirstStartOneClean none schedFirstStartOneClean []
      { startPeriod := 1, limit := 16, numberPhases := none, phaseToUse := none } []
      rfl rfl (by decide) (Or.inr rfl)⟩

/-- C7: for a Recurring profile with a single schedule carrying a
startSchedule, get_profile_start_time shifts the query instant backward by
the elapsed seconds since the startSchedule (floored to whole seconds),
taken modulo 86400 for Daily and modulo 7 times 86400 for Weekly, using the
C++ truncated division and remainder the source compiles to. -/
theorem C7_recurring_start_time (p : ChargingProfile) (sch : ChargingSchedule) (t s e : Int)
    (h1 : p.chargingSchedule = [sch])
    (h2 : p.chargingProfileKind = .Recurring)
    (h3 : sch.startSchedule = some s) :
    (p.recurrencyKind = some .Daily →
      get_profile_start_time p t e =
        some (t - 1000 * Int.tmod (ms_to_sec_trunc (t - floor_to_seconds_ms s)) 86400)) ∧
    (p.recurrencyKind = some .Weekly →
      get_profile_start_time p t e =
        some (t - 1000 * Int.tmod (ms_to_sec_trunc (t - floor_to_seconds_ms s)) (7 * 86400))) := by
  constructor <;> intro hk <;>
    simp [get_profile_start_time, h1, h2, hk, get_recurring_profile_start_time, h3,
      HOURS_PER_DAY, SECONDS_PER_HOUR, SECONDS_PER_DAY, DAYS_PER_WEEK]

/-- C7 witness: the Daily case at 2024-01-17T17:30:00Z for the profile
anchored at 2024-01-01T17:00:00Z resolves to 2024-01-17T17:00:00Z. -/
theorem C7_recurring_start_time_witness :
    dailyRecurringProfile.chargingSchedule = [recurringSchedule] ∧
      dailyRecurringProfile.chargingProfileKind = .Recurring ∧
      recurringSchedule.startSchedule = some 1704128400000 ∧
      dailyRecurringProfile.recurrencyKind = some .Daily ∧
      get_profile_start_time dailyRecurringProfile 1705512600000 1 = some 1705510800000 :=
  ⟨rfl, rfl, rfl, rfl, by
    have h := (C7_recurring_start_time dailyRecurringProfile recurringSchedule
      1705512600000 1704128400000 1 rfl rfl rfl).1 rfl
    exact h.trans (by decide)⟩

/-- C8: counterexample to re-validation idempotence.  TxProfile id 5 on
transaction "trx" validates as Valid against the empty store, but after it
is stored via add_profile the same validation returns
TxProfileConflictingStackLevel: the conflict scan has no distinct-id guard
and the stored copy of the profile conflicts with itself. -/
theorem C8_revalidation_conflicts_cex :
    validate_tx_profile emptyState txProfile5 evseWithActiveTx = .Valid ∧
      validate_tx_profile (add_profile emptyState 1 txProfile5) txProfile5 evseWithActiveTx =
        .TxProfileConflictingStackLevel := by
  decide

/-- C8 (amended): validation never mutates the store (the validators are
read-only), but re-validating a stored TxProfile is not idempotent: for any
TxProfile carrying a transaction id that matches the EVSE's active
transaction, once the profile is stored in the EVSE's bucket,
validate_tx_profile returns TxProfileConflictingStackLevel, because the
conflicting-stack-level scan fires for any stored profile sharing
(transaction_id, stack_level), including the stored copy itself. -/
theorem C8_revalidation_conflicting_stack_level (s : SmartChargingState) (p : ChargingProfile)
    (evse : Evse) (tid : String) (tx : EvseTransaction)
    (h1 : p.transactionId = some tid)
    (h2 : evse.transaction = some tx)
    (h3 : tx.transactionId = tid)
    (h4 : 0 < evse.id) :
    validate_tx_profile (add_profile s evse.id p) p evse = .TxProfileConflictingStackLevel := by
  have h0 : ¬(STATION_WIDE_ID = evse.id) := by simp only [STATION_WIDE_ID]; omega
  obtain ⟨kv, hkv, hp⟩ := add_to_bucket_mem_self evse.id p s.chargingProfiles
  have hany : ((add_profile s evse.id p).chargingProfiles.any
      (fun kv => tx_profile_conflict p kv.2)) = true := by
    simp only [add_profile, if_neg h0]
    exact List.any_eq_true.mpr ⟨kv, hkv, tx_profile_conflict_of_mem p kv.2 hp⟩
  have hle : ¬(evse.id ≤ 0) := by omega
  have hne : ¬(tx.transactionId ≠ tid) := fun hcontra => hcontra h3
  simp [validate_tx_profile, h1, h2, hany, hle, hne]

/-- C8 witness: the amended statement at the concrete TxProfile fixture. -/
theorem C8_revalidation_witness :
    txProfile5.transactionId = some "trx" ∧
      evseWithActiveTx.transaction = some activeTx ∧
      activeTx.transactionId = "trx" ∧
      (0 : Int) < evseWithActiveTx.id ∧
      validate_tx_profile (add_profile emptyState evseWithActiveTx.id txProfile5) txProfile5
          evseWithActiveTx = .TxProfileConflictingStackLevel :=
  ⟨rfl, rfl, rfl, by decide,
    C8_revalidation_conflicting_stack_level emptyState txProfile5 evseWithActiveTx "trx" activeTx
      rfl rfl rfl (by decide)⟩

/-- C9: calculate_composite_schedule on an empty profile list returns the
initialized CompositeSchedule: the requested evse id, unit and window start,
the window length in whole seconds as duration, and an empty period list;
for the window 2024-01-17T18:00:00Z to 2024-01-18T00:00:00Z on EVSE 1 in
Amps the duration is 21600 and the period list is empty. -/
theorem C9_empty_profiles_composite :
    (∀ (start_time end_time evse_id : Int) (u : ChargingRateUnitEnum),
      calculate_composite_schedule [] start_time end_time evse_id u =
        { evseId := evse_id, duration := ms_to_sec_trunc (end_time - start_time)
          scheduleStart := start_time, chargingRateUnit := u, chargingSchedulePeriod := [] }) ∧
    calculate_composite_schedule [] 1705514400000 1705536000000 1 .A =
      { evseId := 1, duration := 21600, scheduleStart := 1705514400000
        chargingRateUnit := .A, chargingSchedulePeriod := [] } :=
  ⟨fun _ _ _ _ => rfl, by decide⟩

/-- C10: counterexample to unconditional forward progress.  With the clock
at epoch 0 the sentinel now + hours(INT_MAX) equals 7730941129200000
milliseconds; querying get_next_temp_time with the empty profile list at
exactly that cursor returns the cursor itself, not a strictly later time. -/
theorem C10_sentinel_equals_temp_time_cex :
    get_next_temp_time 0 7730941129200000 [] 1 = 7730941129200000 ∧
      ¬(7730941129200000 < get_next_temp_time 0 7730941129200000 [] 1) := by
  decide

/-- C10 (amended): whenever temp_time precedes the sentinel now +
hours(INT_MAX) that seeds the search, get_next_temp_time returns a time
strictly greater than temp_time, for every profile list whose members have
at least one schedule and carry a recurrency kind when Recurring: the loop
only ever lowers the running minimum to a period end strictly after
temp_time. -/
theorem C10_forward_progress_bounded (now temp_time : Int)
    (valid_profiles : List ChargingProfile) (evse_id : Int)
    (hsched : ∀ p ∈ valid_profiles, p.chargingSchedule ≠ [])
    (hrec : ∀ p ∈ valid_profiles, p.chargingProfileKind = .Recurring → p.recurrencyKind ≠ none)
    (hbound : temp_time < now + 3600000 * 2147483647) :
    temp_time < get_next_temp_time now temp_time valid_profiles evse_id :=
  next_temp_time_loop_gt temp_time evse_id valid_profiles _ hbound

/-- C10 witness: the amended statement for one Absolute profile anchored at
epoch 0, queried from cursor 0 with the clock at epoch 0. -/
theorem C10_forward_progress_witness :
    (∀ p ∈ [absoluteProfileAtZero], p.chargingSchedule ≠ []) ∧
      (∀ p ∈ [absoluteProfileAtZero],
        p.chargingProfileKind = .Recurring → p.recurrencyKind ≠ none) ∧
      (0 : Int) < 0 + 3600000 * 2147483647 ∧
      (0 : Int) < get_next_temp_time 0 0 [absoluteProfileAtZero] 1 :=
  ⟨by decide, by decide, by decide,
    C10_forward_progress_bounded 0 0 [absoluteProfileAtZero] 1 (by decide) (by decide) (by decide)⟩

end SmartCharging
